import Mathlib

/-
Verification development for the ATUS time-use analysis scripts
(2025_07_21_time_use_analysis): a shallow embedding of the BLS API client
(`API Method/scripts/atus_api_client.py`), the API fetch script
(`PDF Method/fetch_atus_api.py`), and the PDF extraction scripts
(`PDF Method/extract_atus_final.py`, `PDF Method/scrape_atus.py`,
`PDF Method/examine_pdf_structure.py`).

Texts are modelled as `List Char`, Python floats as `Rat`, Python dicts of
statistics as insertion-ordered association lists, raised exceptions as
`Except PyErr`, and the HTTP layer as an oracle from requests to outcomes.
-/

/-- Python exception kinds raised by the modelled code paths. -/
inductive PyErr where
  | nameError
  | indexError
  | valueError
  | keyError
  | attributeError
deriving DecidableEq, Repr

/-- Value of Python int() applied to a matched group of decimal digits. -/
def natOfDigits (ds : List Char) : Nat :=
  ds.foldl (fun n c => n * 10 + (c.toNat - '0'.toNat)) 0

/-- Exact rational value of the decimal literal with integer digits `d1` and
fractional digits `d2` (the value Python float() computes for "d1.d2", taken
exactly rather than as a binary approximation). -/
def decRat (d1 d2 : List Char) : Rat :=
  (natOfDigits d1 : Rat) + (natOfDigits d2 : Rat) / ((10 : Rat) ^ d2.length)

/-- Python str.strip(): drop leading and trailing whitespace. -/
def stripWs (cs : List Char) : List Char :=
  ((cs.dropWhile Char.isWhitespace).reverse.dropWhile Char.isWhitespace).reverse

/-- Python text.split with separator a single newline: yields the maximal
newline-free pieces and always at least one (possibly empty) piece. -/
def splitLines : List Char → List (List Char)
  | [] => [[]]
  | c :: cs =>
    if c = '\n' then [] :: splitLines cs
    else
      match splitLines cs with
      | [] => [[c]]
      | l :: ls => (c :: l) :: ls

theorem splitLines_ne_nil (cs : List Char) : splitLines cs ≠ [] := by
  induction cs with
  | nil => simp [splitLines]
  | cons c cs ih =>
    simp only [splitLines]
    split
    · simp
    · match h : splitLines cs with
      | [] => simp
      | l :: ls => simp

/-- Greedy match of the regex `p+` for a character class `p` at the start of
the input: the maximal nonempty run of class characters together with the
rest of the input. -/
def takeClass1 (p : Char → Bool) : List Char → Option (List Char × List Char)
  | [] => none
  | c :: cs => if p c then some (c :: cs.takeWhile p, cs.dropWhile p) else none

/-- Match of a single literal character at the start of the input. -/
def expectChar (a : Char) : List Char → Option (List Char)
  | [] => none
  | c :: cs => if c = a then some cs else none

/-- Match of a literal character sequence at the start of the input,
returning the rest. -/
def dropLit : List Char → List Char → Option (List Char)
  | [], rest => some rest
  | _ :: _, [] => none
  | a :: as, c :: cs => if c = a then dropLit as cs else none

/-- Backtracking of a greedy `class+` regex element: `runRev` is the reversed
not-yet-given-back part of the maximal class run and `acc` the input after it.
Candidates are tried longest first; at least one run character must stay
consumed, exactly as the regex engine backtracks a greedy one-or-more. -/
def btPlus {α : Type} (cont : List Char → Option α) : List Char → List Char → Option α
  | [], _ => none
  | c :: runRev, acc =>
    match cont acc with
    | some v => some v
    | none => btPlus cont runRev (c :: acc)

/-- Python re.search: try the at-position matcher at every start position,
leftmost first (including the end-of-input position, as re does). -/
def searchAt {α : Type} (m : List Char → Option α) : List Char → Option α
  | [] => m []
  | c :: cs =>
    match m (c :: cs) with
    | some v => some v
    | none => searchAt m cs

/-- Optional sign at the start of a Python float literal. -/
def pySign : List Char → Int × List Char
  | '+' :: cs => (1, cs)
  | '-' :: cs => (-1, cs)
  | cs => (1, cs)

/-- Optional exponent suffix of a Python float literal; the whole rest of the
input must be consumed by it. -/
def pyExpTail : List Char → Option Int
  | [] => some 0
  | c :: cs =>
    if c = 'e' ∨ c = 'E' then
      let (s, cs1) := pySign cs
      let ds := cs1.takeWhile Char.isDigit
      let rest := cs1.dropWhile Char.isDigit
      if ds.isEmpty ∨ ¬ rest.isEmpty then none
      else some (s * (natOfDigits ds : Int))
    else none

/-- Python float(str) on the decimal forms that occur in BLS observation
strings: optional surrounding whitespace, optional sign, digits with an
optional fractional part (at least one digit overall), optional exponent.
(inf/nan and underscore digit separators are not modelled.) `none` models
float() raising ValueError. -/
def pyFloat (s : String) : Option Rat :=
  let cs := stripWs s.data
  let (sgn, cs1) := pySign cs
  let ip := cs1.takeWhile Char.isDigit
  let cs2 := cs1.dropWhile Char.isDigit
  match cs2 with
  | '.' :: cs3 =>
    let fp := cs3.takeWhile Char.isDigit
    let cs4 := cs3.dropWhile Char.isDigit
    if ip.isEmpty ∧ fp.isEmpty then none
    else (pyExpTail cs4).map (fun e => (sgn : Rat) * decRat ip fp * (10 : Rat) ^ e)
  | _ =>
    if ip.isEmpty then none
    else (pyExpTail cs2).map (fun e => (sgn : Rat) * (natOfDigits ip : Rat) * (10 : Rat) ^ e)

namespace AtusApiClient

/-- Catalog block of a series (series.get('catalog', {})); each field models
the corresponding key, absent keys as `none`. -/
structure Catalog where
  series_title : Option String
  survey_name : Option String
  survey_abbreviation : Option String
deriving DecidableEq

/-- One footnote dict of an observation. `code`/`text` model the keys read by
footnote.get('code', '') / footnote.get('text', ''). -/
structure Footnote where
  code : Option String
  text : Option String
deriving DecidableEq

/-- One observation dict inside series['data']. The keys year, period and
value are read by direct indexing in the scripts and are modelled as required
fields; the remaining keys are read with .get and modelled as options. An
empty footnote dict, falsy under `if footnote:`, is modelled as `none` in the
footnotes list. -/
structure DataItem where
  year : String
  period : String
  periodName : Option String
  value : String
  latest : Option Bool
  footnotes : List (Option Footnote)
  calculations : Option (List (String × String))
deriving DecidableEq

/-- One entry of Results.series. -/
structure SeriesEntry where
  seriesID : String
  catalog : Option Catalog
  data : List DataItem
deriving DecidableEq

/-- The Results object of a successful BLS response. -/
structure ResultsBlock where
  series : List SeriesEntry
deriving DecidableEq

/-- The JSON object of a BLS API response, restricted to the keys the scripts
read; an absent key is `none`. -/
structure ApiResponse where
  status : Option String
  message : Option String
  Results : Option ResultsBlock
deriving DecidableEq

/-- Python truthiness of the response dict: a dict is falsy iff empty, which
in this model means every modelled key is absent. -/
def ApiResponse.isFalsy (r : ApiResponse) : Bool :=
  r.status.isNone && r.message.isNone && r.Results.isNone

/-- Payload of the POST issued by get_latest_series for several series. -/
structure LatestPayload where
  seriesid : List String
  latest : Bool
  registrationkey : String
deriving DecidableEq

/-- Payload of the POST issued by get_series_data. -/
structure SeriesPayload where
  seriesid : List String
  startyear : String
  endyear : String
  catalog : Bool
  calculations : Bool
  annualaverage : Bool
  aspects : Bool
  registrationkey : String
deriving DecidableEq

/-- An HTTP request as issued by ATUSAPIClient. -/
inductive HttpRequest where
  | get (url : String)
  | postLatest (url : String) (payload : LatestPayload)
  | postSeries (url : String) (payload : SeriesPayload)
deriving DecidableEq

/-- Outcome of requests.get/post followed by raise_for_status() and .json():
either the decoded JSON object, or a raised
requests.exceptions.RequestException carrying a message. -/
inductive HttpOutcome where
  | ok (json : ApiResponse)
  | err (e : String)

/-- The fixed base URL set in ATUSAPIClient.__init__. -/
def base_url : String := "https://api.bls.gov/publicAPI/v2"

/-- Request construction of ATUSAPIClient.get_latest_series: a GET with the
latest flag for a single-element series list (the Python branch
len(series_ids) == 1, which reads series_ids[0]), a POST with a JSON payload
otherwise. -/
def get_latest_series_request (base api_key : String) (series_ids : List String) :
    HttpRequest :=
  match series_ids with
  | [sid] =>
    .get (base ++ "/timeseries/data/" ++ sid ++ "?latest=true&registrationkey=" ++ api_key)
  | _ => .postLatest (base ++ "/timeseries/data/") ⟨series_ids, true, api_key⟩

/-- ATUSAPIClient.get_latest_series over an HTTP oracle, returning the printed
lines and the returned value: the decoded JSON on success, and None after
printing the error when the request raises a RequestException. -/
def get_latest_series (base api_key : String) (series_ids : List String)
    (http : HttpRequest → HttpOutcome) : List String × Option ApiResponse :=
  match http (get_latest_series_request base api_key series_ids) with
  | .ok j => ([], some j)
  | .err e => (["Error fetching latest data: " ++ e], none)

/-- Request construction of ATUSAPIClient.get_series_data: always a POST with
the full payload. -/
def get_series_data_request (base api_key : String) (series_ids : List String)
    (start_year end_year : String) (catalog calculations annualaverage aspects : Bool) :
    HttpRequest :=
  .postSeries (base ++ "/timeseries/data/")
    ⟨series_ids, start_year, end_year, catalog, calculations, annualaverage, aspects, api_key⟩

/-- ATUSAPIClient.get_series_data over an HTTP oracle, returning the printed
lines and the returned value. -/
def get_series_data (base api_key : String) (series_ids : List String)
    (start_year end_year : String) (catalog calculations annualaverage aspects : Bool)
    (http : HttpRequest → HttpOutcome) : List String × Option ApiResponse :=
  match http (get_series_data_request base api_key series_ids start_year end_year
      catalog calculations annualaverage aspects) with
  | .ok j => ([], some j)
  | .err e => (["Error fetching series data: " ++ e], none)

/-- catalog.get(key, '') where catalog = series.get('catalog', {}). -/
def catGet (cat : Option Catalog) (f : Catalog → Option String) : String :=
  match cat with
  | none => ""
  | some c => (f c).getD ""

/-- One row of the DataFrame built by parse_response_to_dataframe. The
calc_* columns added per calculation entry are kept as a key-value list. -/
structure ApiRow where
  series_id : String
  series_title : String
  survey_name : String
  survey_abbreviation : String
  year : String
  period : String
  period_name : String
  value : Option Rat
  latest : Bool
  footnotes : String
  calcs : List (String × String)
deriving DecidableEq

/-- The footnotes column: '; '.join of "code: text" over the truthy footnote
dicts, and '' when none are present. -/
def footnoteText (fns : List (Option Footnote)) : String :=
  String.intercalate "; "
    ((fns.filterMap id).map (fun f => f.code.getD "" ++ ": " ++ f.text.getD ""))

/-- The row dict built for one data item, given the parsed value field. -/
def mkItemRow (sid : String) (cat : Option Catalog) (it : DataItem) (v : Option Rat) :
    ApiRow :=
  ⟨sid, catGet cat Catalog.series_title, catGet cat Catalog.survey_name,
   catGet cat Catalog.survey_abbreviation, it.year, it.period, it.periodName.getD "",
   v, it.latest.getD false, footnoteText it.footnotes,
   (it.calculations.getD []).map (fun kv => ("calc_" ++ kv.1, kv.2))⟩

/-- Row construction for one data item:
float(item['value']) if item['value'] != '-' else None. float() raises
ValueError when the string is neither '-' nor a float literal. -/
def parseItem (sid : String) (cat : Option Catalog) (it : DataItem) :
    Except PyErr ApiRow :=
  if it.value = "-" then
    .ok (mkItemRow sid cat it none)
  else
    match pyFloat it.value with
    | none => .error .valueError
    | some q => .ok (mkItemRow sid cat it (some q))

/-- The inner `for item in series['data']` loop; a raised exception aborts the
whole parse. -/
def parseItems (sid : String) (cat : Option Catalog) :
    List DataItem → Except PyErr (List ApiRow)
  | [] => .ok []
  | it :: its =>
    match parseItem sid cat it with
    | .error e => .error e
    | .ok r =>
      match parseItems sid cat its with
      | .error e => .error e
      | .ok rs => .ok (r :: rs)

/-- The outer `for series in json_data['Results']['series']` loop. -/
def parseAllSeries : List SeriesEntry → Except PyErr (List ApiRow)
  | [] => .ok []
  | s :: ss =>
    match parseItems s.seriesID s.catalog s.data with
    | .error e => .error e
    | .ok rs =>
      match parseAllSeries ss with
      | .error e => .error e
      | .ok rs2 => .ok (rs ++ rs2)

/-- ATUSAPIClient.parse_response_to_dataframe, returning the printed lines and
the result. On Python None input the guard `not json_data or ...` is true, but
the print's f-string evaluates json_data.get('message', 'Unknown error') on
None, which raises AttributeError instead of returning None. On a dict input
that is falsy (empty) or whose status differs from 'REQUEST_SUCCEEDED' it
prints the message and returns None; otherwise json_data['Results'] is read by
direct indexing (KeyError when absent) and the rows are built. -/
def parse_response_to_dataframe (json_data : Option ApiResponse) :
    List String × Except PyErr (Option (List ApiRow)) :=
  match json_data with
  | none => ([], .error .attributeError)
  | some r =>
    if r.isFalsy ∨ r.status ≠ some "REQUEST_SUCCEEDED" then
      (["Invalid response: " ++ r.message.getD "Unknown error"], .ok none)
    else
      match r.Results with
      | none => ([], .error .keyError)
      | some res =>
        match parseAllSeries res.series with
        | .error e => ([], .error e)
        | .ok rows => ([], .ok (some rows))

end AtusApiClient

namespace FetchAtusApi

open AtusApiClient

/-- fetch_atus_data over the outcome of the single POST it issues: on a
RequestException it prints and returns None; on a decoded response it reads
json_data['status'] by direct indexing (KeyError when absent) and returns the
response iff the status is 'REQUEST_SUCCEEDED', printing and returning None
otherwise. -/
def fetch_atus_data (outcome : HttpOutcome) : Except PyErr (Option ApiResponse) :=
  match outcome with
  | .err _ => .ok none
  | .ok j =>
    match j.status with
    | none => .error .keyError
    | some s => if s = "REQUEST_SUCCEEDED" then .ok (some j) else .ok none

/-- One row of the DataFrame built by parse_atus_response. -/
structure SimpleRow where
  series_id : String
  series_title : String
  year : String
  period : String
  value : Rat
  periodName : String
  latest : Bool
  footnotes : String
deriving DecidableEq

/-- The footnotes column of parse_atus_response: ', '.join of the text of
each truthy footnote dict, '' when none. -/
def footnoteTextSimple (fns : List (Option Footnote)) : String :=
  String.intercalate ", " ((fns.filterMap id).map (fun f => f.text.getD ""))

/-- Row construction for one data item in parse_atus_response; here
float(item['value']) is applied unconditionally, so the '-' marker raises
ValueError. -/
def parseItemSimple (sid : String) (cat : Option Catalog) (it : DataItem) :
    Except PyErr SimpleRow :=
  match pyFloat it.value with
  | none => .error .valueError
  | some q =>
    .ok ⟨sid, catGet cat Catalog.series_title, it.year, it.period, q,
         it.periodName.getD "", it.latest.getD false, footnoteTextSimple it.footnotes⟩

/-- The inner data loop of parse_atus_response. -/
def parseItemsSimple (sid : String) (cat : Option Catalog) :
    List DataItem → Except PyErr (List SimpleRow)
  | [] => .ok []
  | it :: its =>
    match parseItemSimple sid cat it with
    | .error e => .error e
    | .ok r =>
      match parseItemsSimple sid cat its with
      | .error e => .error e
      | .ok rs => .ok (r :: rs)

/-- The outer series loop of parse_atus_response. -/
def parseSeriesListSimple : List SeriesEntry → Except PyErr (List SimpleRow)
  | [] => .ok []
  | s :: ss =>
    match parseItemsSimple s.seriesID s.catalog s.data with
    | .error e => .error e
    | .ok rs =>
      match parseSeriesListSimple ss with
      | .error e => .error e
      | .ok rs2 => .ok (rs ++ rs2)

/-- parse_atus_response: returns None when the input is None, is a falsy
(empty) dict, or lacks the 'Results' key; otherwise builds one row per
(series, data item) pair. -/
def parse_atus_response (json_data : Option ApiResponse) :
    Except PyErr (Option (List SimpleRow)) :=
  match json_data with
  | none => .ok none
  | some r =>
    if r.isFalsy then .ok none
    else
      match r.Results with
      | none => .ok none
      | some res =>
        match parseSeriesListSimple res.series with
        | .error e => .error e
        | .ok rows => .ok (some rows)

/-- Python truthiness of an Optional response dict as tested by
`if test_data:` and `if atus_data:`. -/
def truthyResp : Option ApiResponse → Bool
  | none => false
  | some r => !r.isFalsy

/-- Observable actions of the module-level script, restricted to the parse
call, the CSV write and the printed status messages that the claims mention. -/
inductive ScriptAction where
  | parseCall
  | saveCsv (path : String)
  | printMsg (msg : String)
deriving DecidableEq

/-- The module-level flow of fetch_atus_api.py: a connectivity test fetch,
then the ATUS fetch, and parsing plus CSV writing only inside the
`if atus_data:` branch; `o1`/`o2` are the outcomes of the two HTTP calls. -/
def mainScript (o1 o2 : HttpOutcome) : Except PyErr (List ScriptAction) :=
  match fetch_atus_data o1 with
  | .error e => .error e
  | .ok test_data =>
    if truthyResp test_data then
      match fetch_atus_data o2 with
      | .error e => .error e
      | .ok atus_data =>
        if truthyResp atus_data then
          match parse_atus_response atus_data with
          | .error e => .error e
          | .ok df =>
            match df with
            | some rows =>
              if rows.isEmpty then
                .ok [.parseCall, .printMsg "No data found in ATUS response"]
              else .ok [.parseCall, .saveCsv "data/atus_api_data.csv"]
            | none => .ok [.parseCall, .printMsg "No data found in ATUS response"]
        else .ok [.printMsg "Failed to fetch ATUS data"]
    else .ok [.printMsg "API connection test failed"]

end FetchAtusApi

namespace ExtractAtusFinal

/-- Python value stored in the key_stats dict: float() results for the
hour-valued statistics and int() results for the minute-valued ones. -/
inductive PyVal where
  | pfloat (q : Rat)
  | pint (n : Int)
deriving DecidableEq

/-- A Python dict of statistics as an insertion-ordered association list;
assignment replaces an existing key in place or appends a fresh one. -/
def dictSet : List (String × PyVal) → String → PyVal → List (String × PyVal)
  | [], k, v => [(k, v)]
  | (k', v') :: rest, k, v =>
    if k' = k then (k, v) :: rest else (k', v') :: dictSet rest k v

/-- Python dict lookup. -/
def dictGet : List (String × PyVal) → String → Option PyVal
  | [], _ => none
  | (k', v') :: rest, k => if k' = k then some v' else dictGet rest k

/-- Python `k in d`. -/
def hasKey (d : List (String × PyVal)) (k : String) : Bool :=
  (dictGet d k).isSome

/-- Capture of the group `(\d+\.\d+)`: greedy digit runs around a literal
dot. Greedy matching without backtracking is exact here because at every
use site the regex element after the group starts with a character that is
neither a digit nor a dot. -/
def capDec (cs : List Char) : Option (Rat × List Char) :=
  match takeClass1 Char.isDigit cs with
  | none => none
  | some (d1, r1) =>
    match r1 with
    | '.' :: r2 =>
      match takeClass1 Char.isDigit r2 with
      | none => none
      | some (d2, r3) => some (decRat d1 d2, r3)
    | _ => none

/-- Continuation `\((\d+\.\d+) hours per day\)` shared by the TV and total
leisure patterns. -/
def contHoursPerDay (cs : List Char) : Option Rat :=
  match expectChar '(' cs with
  | none => none
  | some r1 =>
    match capDec r1 with
    | none => none
    | some (q, r2) =>
      match dropLit " hours per day)".data r2 with
      | none => none
      | some _ => some q

/-- At-position matcher for
`Watching TV was the leisure[^(]+\((\d+\.\d+) hours per day\)`. -/
def matchTVAt (cs : List Char) : Option Rat :=
  match dropLit "Watching TV was the leisure".data cs with
  | none => none
  | some r1 =>
    match takeClass1 (fun c => c != '(') r1 with
    | none => none
    | some (run, rest) => btPlus contHoursPerDay run.reverse rest

/-- At-position matcher for
`all leisure time[^(]+\((\d+\.\d+) hours per day\)`. -/
def matchLeisureAt (cs : List Char) : Option Rat :=
  match dropLit "all leisure time".data cs with
  | none => none
  | some r1 =>
    match takeClass1 (fun c => c != '(') r1 with
    | none => none
    | some (run, rest) => btPlus contHoursPerDay run.reverse rest

/-- At-position matcher for
`(\d+) minutes playing games and\s+using a computer for leisure`. -/
def matchGamingAt (cs : List Char) : Option Int :=
  match takeClass1 Char.isDigit cs with
  | none => none
  | some (d, r1) =>
    match dropLit " minutes playing games and".data r1 with
    | none => none
    | some r2 =>
      match takeClass1 Char.isWhitespace r2 with
      | none => none
      | some (_, r3) =>
        match dropLit "using a computer for leisure".data r3 with
        | none => none
        | some _ => some (natOfDigits d : Int)

/-- At-position matcher for `(\d+) minutes socializing and communicating`. -/
def matchSocialAt (cs : List Char) : Option Int :=
  match takeClass1 Char.isDigit cs with
  | none => none
  | some (d, r1) =>
    match dropLit " minutes socializing and communicating".data r1 with
    | none => none
    | some _ => some (natOfDigits d : Int)

/-- Continuation `than\s+did women \((\d+\.\d+) hours, compared with
(\d+\.\d+) hours\)` of the gender pattern, tried at each backtracking
position of its `[^(]+`. -/
def contGender (cs : List Char) : Option (Rat × Rat) :=
  match dropLit "than".data cs with
  | none => none
  | some r1 =>
    match takeClass1 Char.isWhitespace r1 with
    | none => none
    | some (_, r2) =>
      match dropLit "did women (".data r2 with
      | none => none
      | some r3 =>
        match capDec r3 with
        | none => none
        | some (m, r4) =>
          match dropLit " hours, compared with ".data r4 with
          | none => none
          | some r5 =>
            match capDec r5 with
            | none => none
            | some (w, r6) =>
              match dropLit " hours)".data r6 with
              | none => none
              | some _ => some (m, w)

/-- At-position matcher for `men spent more time[^(]+than\s+did women
\((\d+\.\d+) hours, compared with (\d+\.\d+) hours\)`. -/
def matchGenderAt (cs : List Char) : Option (Rat × Rat) :=
  match dropLit "men spent more time".data cs with
  | none => none
  | some r1 =>
    match takeClass1 (fun c => c != '(') r1 with
    | none => none
    | some (run, rest) => btPlus contGender run.reverse rest

/-- Conditional insertion of a float-valued statistic
(`if m: key_stats[k] = float(m.group(1))`). -/
def putFloatOpt (d : List (String × PyVal)) (k : String) :
    Option Rat → List (String × PyVal)
  | some q => dictSet d k (.pfloat q)
  | none => d

/-- Conditional insertion of an int-valued statistic
(`if m: key_stats[k] = int(m.group(1))`). -/
def putIntOpt (d : List (String × PyVal)) (k : String) :
    Option Int → List (String × PyVal)
  | some n => dictSet d k (.pint n)
  | none => d

/-- Conditional insertion of the two gender statistics from the two capture
groups of the gender pattern. -/
def putGender (d : List (String × PyVal)) :
    Option (Rat × Rat) → List (String × PyVal)
  | some mw =>
    dictSet (dictSet d "men_leisure_hours" (.pfloat mw.1))
      "women_leisure_hours" (.pfloat mw.2)
  | none => d

/-- extract_key_statistics applied to the extracted text of the summary page
(page 2 of the PDF): five re.search calls, each adding its statistic to the
dict only when the pattern matched. -/
def extract_key_statistics (text : List Char) : List (String × PyVal) :=
  putGender
    (putIntOpt
      (putIntOpt
        (putFloatOpt
          (putFloatOpt [] "tv_hours" (searchAt matchTVAt text))
          "total_leisure_hours" (searchAt matchLeisureAt text))
        "gaming_minutes" (searchAt matchGamingAt text))
      "socializing_minutes" (searchAt matchSocialAt text))
    (searchAt matchGenderAt text)

/-- At-position matcher of the token regex `\d+\.\d+` used by re.findall,
returning the matched token, its float() value and the rest of the input. -/
def matchDecAt (cs : List Char) : Option (List Char × Rat × List Char) :=
  match takeClass1 Char.isDigit cs with
  | none => none
  | some (d1, r1) =>
    match r1 with
    | '.' :: r2 =>
      match takeClass1 Char.isDigit r2 with
      | none => none
      | some (d2, r3) => some (d1 ++ '.' :: d2, decRat d1 d2, r3)
    | _ => none

/-- Scanning loop of re.findall(r'\d+\.\d+', line): scan left to right,
emitting each non-overlapping match and advancing one character after a
failed position, as the regex engine does. Each token is paired with its
float() value. The fuel argument makes the recursion structural; every step
strictly shortens the input, so fuel equal to the input length (as supplied
by `findallDec`) is never exhausted. -/
def findallDecFuel : Nat → List Char → List (List Char × Rat)
  | 0, _ => []
  | _ + 1, [] => []
  | fuel + 1, c :: cs =>
    match matchDecAt (c :: cs) with
    | some (tok, q, rest) => (tok, q) :: findallDecFuel fuel rest
    | none => findallDecFuel fuel cs

/-- re.findall(r'\d+\.\d+', line). -/
def findallDec (cs : List Char) : List (List Char × Rat) :=
  findallDecFuel cs.length cs

/-- Python `needle in haystack` prefix test helper. -/
def startsWithL : List Char → List Char → Bool
  | [], _ => true
  | _ :: _, [] => false
  | a :: as, c :: cs => a == c && startsWithL as cs

/-- Python substring containment `needle in line`. -/
def containsSub (needle : List Char) : List Char → Bool
  | [] => needle.isEmpty
  | c :: cs => startsWithL needle (c :: cs) || containsSub needle cs

/-- Python line.split(sep)[0]: the characters before the first occurrence of
sep, or the whole line when sep does not occur. -/
def splitBeforeFirst (sep : List Char) : List Char → List Char
  | [] => []
  | c :: cs =>
    if startsWithL sep (c :: cs) then [] else c :: splitBeforeFirst sep cs

/-- The demographic keywords tested by extract_table_11a_data. -/
def t11aKeywords : List String :=
  ["Total, 15 years and over", "Men", "Women", "to 24 years",
   "to 34 years", "to 44 years", "to 54 years",
   "to 64 years", "65 to 74 years", "75 years and over",
   "Less than a high school", "High school grad",
   "Bachelor\x27s degree"]

/-- Test whether a line contains one of the demographic keywords. -/
def hasT11aKeyword (line : List Char) : Bool :=
  t11aKeywords.any (fun kw => containsSub kw.data line)

/-- One row of the Table 11A DataFrame. -/
structure Row11a where
  demographic : List Char
  total_leisure : Rat
  sports : Rat
  socializing : Rat
  tv : Rat
  reading : Rat
  relaxing : Rat
  gaming : Rat
  other : Rat
deriving DecidableEq

/-- The row dict built for a matching Table 11A line: the demographic label
is the stripped text before the first matched number, and each activity field
is float(numbers[i]) when present and 0 otherwise. -/
def mkRow11a (line : List Char) (numbers : List (List Char × Rat)) : Row11a :=
  ⟨stripWs (splitBeforeFirst (numbers.headD ([], 0)).1 line),
   (numbers.getD 0 ([], 0)).2, (numbers.getD 1 ([], 0)).2,
   (numbers.getD 2 ([], 0)).2, (numbers.getD 3 ([], 0)).2,
   (numbers.getD 4 ([], 0)).2, (numbers.getD 5 ([], 0)).2,
   (numbers.getD 6 ([], 0)).2, (numbers.getD 7 ([], 0)).2⟩

/-- The line loop of extract_table_11a_data: skip blank lines, and emit a row
for a line exactly when it contains a demographic keyword and re.findall
found at least 7 decimal numbers on it (the Python guard
`numbers and len(numbers) >= 7`). -/
def extract_table_11a_rows : List (List Char) → List Row11a
  | [] => []
  | line :: rest =>
    if (stripWs line).isEmpty then extract_table_11a_rows rest
    else if hasT11aKeyword line then
      if 7 ≤ (findallDec line).length then
        mkRow11a line (findallDec line) :: extract_table_11a_rows rest
      else extract_table_11a_rows rest
    else extract_table_11a_rows rest

/-- extract_table_11a_data applied to the extracted text of the Table 11A
page. -/
def extract_table_11a_data (pageText : List Char) : List Row11a :=
  extract_table_11a_rows (splitLines pageText)

/-- Python numeric multiplication by 60 as applied to a key_stats value. -/
def pyMul60 : PyVal → PyVal
  | .pfloat q => .pfloat (q * 60)
  | .pint n => .pint (n * 60)

/-- The key_stats mutation performed by process_and_save_data: derived minute
fields are added for the hour statistics that are present. (The CSV writes
and the printed report do not touch the dict and are not modelled.) -/
def process_and_save_data (key_stats : List (String × PyVal)) :
    List (String × PyVal) :=
  let ks1 :=
    match dictGet key_stats "tv_hours" with
    | some v => dictSet key_stats "tv_minutes" (pyMul60 v)
    | none => key_stats
  match dictGet ks1 "total_leisure_hours" with
  | some v => dictSet ks1 "total_leisure_minutes" (pyMul60 v)
  | none => ks1

end ExtractAtusFinal

namespace ScrapeAtus

/-- One row of the DataFrame built by extract_time_use_data. -/
structure TimeRow where
  category : List Char
  hours : Nat
  minutes : Nat
  total_minutes : Nat
deriving DecidableEq

/-- At-position matcher of the regex `(\d+):(\d+)`, returning the two int()
group values and the rest of the input. Greedy matching without backtracking
is exact: shortening a digit run leaves a digit where ':' (or the run end)
is required. -/
def matchTimeAt (cs : List Char) : Option (Nat × Nat × List Char) :=
  match takeClass1 Char.isDigit cs with
  | none => none
  | some (d1, r1) =>
    match expectChar ':' r1 with
    | none => none
    | some r2 =>
      match takeClass1 Char.isDigit r2 with
      | none => none
      | some (d2, r3) => some (natOfDigits d1, natOfDigits d2, r3)

/-- re.search(r'(\d+):(\d+)', line): the group values of the leftmost
match. -/
def searchTime (cs : List Char) : Option (Nat × Nat) :=
  searchAt (fun u => (matchTimeAt u).map (fun x => (x.1, x.2.1))) cs

/-- Scanning loop of re.sub(r'(\d+):(\d+)', '', line): delete every
non-overlapping match, scanning left to right and advancing one character
after a failed position. The fuel argument makes the recursion structural;
every step strictly shortens the input, so fuel equal to the input length
(as supplied by `removeTimeMatches`) is never exhausted. -/
def removeTimeMatchesFuel : Nat → List Char → List Char
  | 0, _ => []
  | _ + 1, [] => []
  | fuel + 1, c :: cs =>
    match matchTimeAt (c :: cs) with
    | some (_, _, rest) => removeTimeMatchesFuel fuel rest
    | none => c :: removeTimeMatchesFuel fuel cs

/-- re.sub(r'(\d+):(\d+)', '', line). -/
def removeTimeMatches (cs : List Char) : List Char :=
  removeTimeMatchesFuel cs.length cs

/-- re.sub(r'\.+$', '', s): remove the run of trailing dots. -/
def stripTrailingDots (cs : List Char) : List Char :=
  (cs.reverse.dropWhile (fun c => c == '.')).reverse

/-- The body of the line loop of extract_time_use_data: strip the line, skip
it when empty, find the first HH:MM time, build the category text by deleting
every time match and stripping trailing dots, and emit a row when the
category text is nonempty. -/
def parseLine (rawLine : List Char) : Option TimeRow :=
  let line := stripWs rawLine
  if line.isEmpty then none
  else
    match searchTime line with
    | none => none
    | some (h, m) =>
      let cat := stripWs (stripTrailingDots (stripWs (removeTimeMatches line)))
      if cat.isEmpty then none
      else some ⟨cat, h, m, h * 60 + m⟩

/-- df.drop_duplicates(subset=['category']) with the default keep='first':
keep a row iff its category has not been seen earlier. -/
def dedupByCategory : List TimeRow → List (List Char) → List TimeRow
  | [], _ => []
  | r :: rs, seen =>
    if r.category ∈ seen then dedupByCategory rs seen
    else r :: dedupByCategory rs (r.category :: seen)

/-- The descending order used by df.sort_values('total_minutes',
ascending=False). -/
def byTotalDesc (a b : TimeRow) : Prop := b.total_minutes ≤ a.total_minutes

instance : DecidableRel byTotalDesc := fun a b => Nat.decLe b.total_minutes a.total_minutes

/-- scrape_atus.extract_time_use_data applied to the per-page extracted texts
of the PDF: concatenate all page texts, split into lines, parse each line,
and, when any rows were found, keep the rows with positive total_minutes,
drop duplicate categories keeping the first, and sort by total_minutes
descending. -/
def extract_time_use_data (doc : List (List Char)) : List TimeRow :=
  let all_text := doc.foldl (fun acc page => acc ++ page) []
  let lines := splitLines all_text
  let data := lines.filterMap parseLine
  if data.isEmpty then data
  else
    List.insertionSort byTotalDesc
      (dedupByCategory (data.filter (fun r => 0 < r.total_minutes)) [])

end ScrapeAtus

namespace ExaminePdfStructure

/-- examine_pdf_structure.py has no module-level `import re`; re is imported
only inside the `if __name__ == "__main__":` block, so the module global re
is unbound for an importer of the module. -/
def moduleImportsRe : Bool := false

/-- fitz page indexing doc[page_num - 1] as reached for page_num ≤ len(doc):
for page_num ≥ 1 the 0-indexed page, and for page_num = 0 the Python index
-1, i.e. the last page (IndexError on an empty document). -/
def textAt (doc : List (List Char)) (p : Nat) : Except PyErr (List Char) :=
  if p = 0 then
    match doc.getLast? with
    | some t => .ok t
    | none => .error .indexError
  else
    match doc.get? (p - 1) with
    | some t => .ok t
    | none => .error .indexError

/-- One iteration of the page loop of examine_page_with_data: pages beyond
the document are skipped; for a page within it, the text is split into lines
(always at least one) and the first line-loop iteration evaluates re.search,
which raises NameError when the global re is unbound. With re bound the body
only prints and raises nothing. -/
def examineOnePage (reBound : Bool) (doc : List (List Char)) (p : Nat) :
    Except PyErr Unit :=
  if p ≤ doc.length then
    match textAt doc p with
    | .error e => .error e
    | .ok text =>
      match splitLines text with
      | [] => .ok ()
      | _ :: _ => if reBound then .ok () else .error .nameError
  else .ok ()

/-- examine_page_with_data over its page_numbers argument; a raised exception
aborts the loop. -/
def examine_page_with_data (reBound : Bool) (doc : List (List Char)) :
    List Nat → Except PyErr Unit
  | [] => .ok ()
  | p :: ps =>
    match examineOnePage reBound doc p with
    | .error e => .error e
    | .ok _ => examine_page_with_data reBound doc ps

/-- The default page_numbers argument of examine_page_with_data. -/
def defaultPageNumbers : List Nat := [1, 2, 23, 24]

end ExaminePdfStructure

open AtusApiClient FetchAtusApi ExtractAtusFinal ScrapeAtus ExaminePdfStructure

theorem dictGet_dictSet (d : List (String × PyVal)) (k : String) (v : PyVal)
    (k' : String) :
    dictGet (dictSet d k v) k' = if k = k' then some v else dictGet d k' := by
  induction d with
  | nil =>
    simp only [dictSet, dictGet]
  | cons a rest ih =>
    obtain ⟨ka, va⟩ := a
    by_cases hak : ka = k
    · subst hak
      simp only [dictSet, if_pos rfl, dictGet]
      by_cases h : ka = k' <;> simp [h]
    · simp only [dictSet, if_neg hak, dictGet, ih]
      by_cases h1 : ka = k' <;> by_cases h2 : k = k' <;> simp [h1, h2]
      exact absurd (h1.trans h2.symm) hak

theorem hasKey_dictSet (d : List (String × PyVal)) (k : String) (v : PyVal)
    (k' : String) :
    hasKey (dictSet d k v) k' = (decide (k = k') || hasKey d k') := by
  simp only [hasKey, dictGet_dictSet]
  by_cases h : k = k' <;> simp [h]

/-- C7: process_and_save_data modifies the key_stats dict only by adding the
derived minute fields: tv_minutes = tv_hours * 60 when tv_hours is present
and total_leisure_minutes = total_leisure_hours * 60 when total_leisure_hours
is present; every other key keeps its value, an absent hour key adds nothing,
and no key is ever removed. -/
theorem c7_process_adds_minutes (ks : List (String × PyVal)) :
    (∀ k, k ≠ "tv_minutes" → k ≠ "total_leisure_minutes" →
        dictGet (process_and_save_data ks) k = dictGet ks k) ∧
    (∀ v, dictGet ks "tv_hours" = some v →
        dictGet (process_and_save_data ks) "tv_minutes" = some (pyMul60 v)) ∧
    (dictGet ks "tv_hours" = none →
        dictGet (process_and_save_data ks) "tv_minutes" = dictGet ks "tv_minutes") ∧
    (∀ v, dictGet ks "total_leisure_hours" = some v →
        dictGet (process_and_save_data ks) "total_leisure_minutes" = some (pyMul60 v)) ∧
    (dictGet ks "total_leisure_hours" = none →
        dictGet (process_and_save_data ks) "total_leisure_minutes" =
          dictGet ks "total_leisure_minutes") ∧
    (∀ k, hasKey ks k = true → hasKey (process_and_save_data ks) k = true) := by
  have htl : dictGet
      (match dictGet ks "tv_hours" with
        | some v => dictSet ks "tv_minutes" (pyMul60 v)
        | none => ks) "total_leisure_hours" = dictGet ks "total_leisure_hours" := by
    cases h1 : dictGet ks "tv_hours" <;> simp [dictGet_dictSet]
  refine ⟨?_, ?_, ?_, ?_, ?_, ?_⟩
  · intro k hk1 hk2
    unfold process_and_save_data
    cases h1 : dictGet ks "tv_hours" <;>
      cases h2 : dictGet ks "total_leisure_hours" <;>
        simp_all [dictGet_dictSet, Ne.symm hk1, Ne.symm hk2]
  · intro v hv
    unfold process_and_save_data
    rw [hv]
    rw [htl] at *
    cases h2 : dictGet ks "total_leisure_hours" <;>
      simp_all [dictGet_dictSet]
  · intro hv
    unfold process_and_save_data
    rw [hv]
    cases h2 : dictGet ks "total_leisure_hours" <;>
      simp_all [dictGet_dictSet]
  · intro v hv
    unfold process_and_save_data
    cases h1 : dictGet ks "tv_hours" <;> simp_all [dictGet_dictSet, htl]
  · intro hv
    unfold process_and_save_data
    cases h1 : dictGet ks "tv_hours" <;> simp_all [dictGet_dictSet, htl]
  · intro k hk
    unfold process_and_save_data
    cases h1 : dictGet ks "tv_hours" <;>
      cases h2 : dictGet ks "total_leisure_hours" <;>
        simp_all [hasKey_dictSet]

/-- Witness for C7 at a concrete dict holding both hour statistics. -/
theorem c7_witness :
    dictGet
        (process_and_save_data
          [("tv_hours", PyVal.pfloat 2), ("gaming_minutes", PyVal.pint 32)])
        "tv_minutes" = some (pyMul60 (PyVal.pfloat 2)) ∧
    dictGet
        (process_and_save_data
          [("tv_hours", PyVal.pfloat 2), ("gaming_minutes", PyVal.pint 32)])
        "gaming_minutes" =
      dictGet [("tv_hours", PyVal.pfloat 2), ("gaming_minutes", PyVal.pint 32)]
        "gaming_minutes" :=
  ⟨(c7_process_adds_minutes
      [("tv_hours", PyVal.pfloat 2), ("gaming_minutes", PyVal.pint 32)]).2.1
      (PyVal.pfloat 2) (by decide),
   (c7_process_adds_minutes
      [("tv_hours", PyVal.pfloat 2), ("gaming_minutes", PyVal.pint 32)]).1
      "gaming_minutes" (by decide) (by decide)⟩

/-- C2: get_latest_series dispatches on the length of its series list: a GET
against base_url ++ "/timeseries/data/" ++ series_ids[0] with latest=true for
a singleton list, and a POST against base_url ++ "/timeseries/data/" with a
payload carrying seriesid, latest = true and the registration key for every
other length. -/
theorem c2_get_latest_series_dispatch (base api_key : String)
    (series_ids : List String) :
    (series_ids.length = 1 →
      ∃ sid, series_ids = [sid] ∧
        get_latest_series_request base api_key series_ids =
          HttpRequest.get
            (base ++ "/timeseries/data/" ++ sid ++ "?latest=true&registrationkey="
              ++ api_key)) ∧
    (series_ids.length ≠ 1 →
      get_latest_series_request base api_key series_ids =
        HttpRequest.postLatest (base ++ "/timeseries/data/")
          ⟨series_ids, true, api_key⟩) := by
  constructor
  · intro h
    match series_ids, h with
    | [sid], _ => exact ⟨sid, rfl, rfl⟩
  · intro h
    match series_ids with
    | [] => rfl
    | [sid] => exact absurd rfl h
    | a :: b :: rest => rfl

/-- Witness for C2 at a singleton and a two-element series list. -/
theorem c2_witness :
    ((["S1"] : List String).length = 1 ∧
      ∃ sid, (["S1"] : List String) = [sid] ∧
        get_latest_series_request "B" "K" ["S1"] =
          HttpRequest.get
            ("B" ++ "/timeseries/data/" ++ sid ++ "?latest=true&registrationkey="
              ++ "K")) ∧
    ((["S1", "S2"] : List String).length ≠ 1 ∧
      get_latest_series_request "B" "K" ["S1", "S2"] =
        HttpRequest.postLatest ("B" ++ "/timeseries/data/")
          ⟨["S1", "S2"], true, "K"⟩) :=
  ⟨⟨rfl, (c2_get_latest_series_dispatch "B" "K" ["S1"]).1 rfl⟩,
   ⟨by decide, (c2_get_latest_series_dispatch "B" "K" ["S1", "S2"]).2 (by decide)⟩⟩

/-- C1 counterexample: on Python None input — a falsy input — the error
branch of parse_response_to_dataframe raises AttributeError (the print's
json_data.get on None) instead of returning None, so the claim that every
falsy input yields None is false. -/
theorem c1_counterexample :
    parse_response_to_dataframe none = ([], .error .attributeError) ∧
    ∀ msgs, parse_response_to_dataframe none ≠ (msgs, .ok none) := by
  constructor
  · rfl
  · intro msgs h
    have := congrArg Prod.snd h
    simp [parse_response_to_dataframe] at this

/-- C1 amended: the API error paths print a message and return None — both
client fetches return None on a RequestException, and
parse_response_to_dataframe prints and returns None whenever its input is a
(dict) response that is falsy or whose status differs from
'REQUEST_SUCCEEDED' — except that on Python None input the error branch
itself raises AttributeError while evaluating the printed message. -/
theorem c1_amended_error_paths :
    (∀ base api_key series_ids (http : HttpRequest → HttpOutcome) e,
        http (get_latest_series_request base api_key series_ids) = .err e →
        get_latest_series base api_key series_ids http =
          (["Error fetching latest data: " ++ e], none)) ∧
    (∀ base api_key ids sy ey c ca aa asp (http : HttpRequest → HttpOutcome) e,
        http (get_series_data_request base api_key ids sy ey c ca aa asp) = .err e →
        get_series_data base api_key ids sy ey c ca aa asp http =
          (["Error fetching series data: " ++ e], none)) ∧
    (parse_response_to_dataframe none).2 = .error .attributeError ∧
    (∀ r : ApiResponse, r.status ≠ some "REQUEST_SUCCEEDED" →
        parse_response_to_dataframe (some r) =
          (["Invalid response: " ++ r.message.getD "Unknown error"], .ok none)) := by
  refine ⟨?_, ?_, rfl, ?_⟩
  · intro base api_key series_ids http e h
    unfold get_latest_series
    rw [h]
  · intro base api_key ids sy ey c ca aa asp http e h
    unfold get_series_data
    rw [h]
  · intro r h
    simp only [parse_response_to_dataframe]
    rw [if_pos (Or.inr h)]

theorem parseItems_eq (sid : String) (cat : Option Catalog) (items : List DataItem)
    (hv : ∀ it ∈ items, it.value = "-" ∨ (pyFloat it.value).isSome) :
    parseItems sid cat items = .ok (items.map (fun it =>
      mkItemRow sid cat it (if it.value = "-" then none else pyFloat it.value))) := by
  induction items with
  | nil => rfl
  | cons it its ih =>
    have hits : ∀ x ∈ its, x.value = "-" ∨ (pyFloat x.value).isSome :=
      fun x hx => hv x (by simp [hx])
    have hpi : parseItem sid cat it =
        .ok (mkItemRow sid cat it (if it.value = "-" then none else pyFloat it.value)) := by
      unfold parseItem
      by_cases h : it.value = "-"
      · simp [h]
      · rcases hv it (by simp) with h' | h'
        · exact absurd h' h
        · obtain ⟨q, hq⟩ := Option.isSome_iff_exists.mp h'
          simp [h, hq]
    simp [parseItems, hpi, ih hits]

theorem parseAllSeries_eq (ss : List SeriesEntry)
    (hv : ∀ s ∈ ss, ∀ it ∈ s.data, it.value = "-" ∨ (pyFloat it.value).isSome) :
    parseAllSeries ss = .ok (ss.flatMap (fun s => s.data.map (fun it =>
      mkItemRow s.seriesID s.catalog it
        (if it.value = "-" then none else pyFloat it.value)))) := by
  induction ss with
  | nil => rfl
  | cons s ss ih =>
    have h1 := parseItems_eq s.seriesID s.catalog s.data (hv s (by simp))
    have h2 := ih (fun x hx it hit => hv x (by simp [hx]) it hit)
    simp [parseAllSeries, h1, h2]

theorem parse_response_ok (r : ApiResponse) (res : ResultsBlock)
    (hst : r.status = some "REQUEST_SUCCEEDED") (hres : r.Results = some res)
    (hv : ∀ s ∈ res.series, ∀ it ∈ s.data, it.value = "-" ∨ (pyFloat it.value).isSome) :
    (parse_response_to_dataframe (some r)).2 =
      .ok (some (res.series.flatMap (fun s => s.data.map (fun it =>
        mkItemRow s.seriesID s.catalog it
          (if it.value = "-" then none else pyFloat it.value))))) := by
  have hfalsy : r.isFalsy = false := by simp [ApiResponse.isFalsy, hst]
  simp only [parse_response_to_dataframe]
  rw [if_neg (by simp [hfalsy, hst])]
  rw [hres]
  simp [parseAllSeries_eq res.series hv]

/-- C3: for every well-formed successful response,
parse_response_to_dataframe yields one row per (series, data item) pair —
the row count is the sum over the series of their data lengths — and each
row carries its series' seriesID in series_id. -/
theorem c3_parse_row_count (r : ApiResponse) (res : ResultsBlock)
    (hst : r.status = some "REQUEST_SUCCEEDED") (hres : r.Results = some res)
    (hv : ∀ s ∈ res.series, ∀ it ∈ s.data, it.value = "-" ∨ (pyFloat it.value).isSome) :
    ∃ rows, (parse_response_to_dataframe (some r)).2 = .ok (some rows) ∧
      rows.length = (res.series.map (fun s => s.data.length)).sum ∧
      rows.map (fun row => row.series_id) =
        res.series.flatMap (fun s => s.data.map (fun _ => s.seriesID)) := by
  refine ⟨_, parse_response_ok r res hst hres hv, ?_, ?_⟩
  · simp [List.length_flatMap, Function.comp_def, List.length_map]
  · simp [List.map_flatMap, List.map_map, Function.comp_def, mkItemRow]

/-- Witness for C3 at a two-item single-series response. -/
theorem c3_witness :
    ∃ rows,
      (parse_response_to_dataframe (some
        ⟨some "REQUEST_SUCCEEDED", none, some ⟨[⟨"TUU10101AA01000000", none,
          [⟨"2024", "A01", none, "5.1", none, [], none⟩,
           ⟨"2023", "A01", none, "-", none, [], none⟩]⟩]⟩⟩)).2 = .ok (some rows) ∧
      rows.length =
        (([⟨"TUU10101AA01000000", none,
          [⟨"2024", "A01", none, "5.1", none, [], none⟩,
           ⟨"2023", "A01", none, "-", none, [], none⟩]⟩] : List SeriesEntry).map
            (fun s => s.data.length)).sum ∧
      rows.map (fun row => row.series_id) =
        ([⟨"TUU10101AA01000000", none,
          [⟨"2024", "A01", none, "5.1", none, [], none⟩,
           ⟨"2023", "A01", none, "-", none, [], none⟩]⟩] : List SeriesEntry).flatMap
          (fun s => s.data.map (fun _ => s.seriesID)) :=
  c3_parse_row_count _ _ rfl rfl (by decide)

/-- C9: the value column is total on the BLS missing-value marker: a row's
value is None exactly when the raw observation string is '-', it is the float
conversion of the raw string otherwise, and a response all of whose
observations carry '-' parses without raising. -/
theorem c9_value_marker_total :
    (∀ sid cat (it : DataItem), it.value = "-" →
        parseItem sid cat it = .ok (mkItemRow sid cat it none)) ∧
    (∀ sid cat it row, parseItem sid cat it = .ok row →
        ((row.value = none ↔ it.value = "-") ∧
          ∀ q, row.value = some q → pyFloat it.value = some q)) ∧
    (∀ (r : ApiResponse) res, r.status = some "REQUEST_SUCCEEDED" →
        r.Results = some res →
        (∀ s ∈ res.series, ∀ it ∈ s.data, it.value = "-") →
        ∃ rows, (parse_response_to_dataframe (some r)).2 = .ok (some rows) ∧
          ∀ row ∈ rows, row.value = none) := by
  refine ⟨?_, ?_, ?_⟩
  · intro sid cat it h
    simp [parseItem, h]
  · intro sid cat it row h
    unfold parseItem at h
    by_cases hm : it.value = "-"
    · rw [if_pos hm] at h
      simp only [Except.ok.injEq] at h
      subst h
      simp [mkItemRow, hm]
    · rw [if_neg hm] at h
      cases hq : pyFloat it.value with
      | none => rw [hq] at h; simp at h
      | some q =>
        rw [hq] at h
        simp only [Except.ok.injEq] at h
        subst h
        simp [mkItemRow, hm, hq]
  · intro r res hst hres hv
    refine ⟨_, parse_response_ok r res hst hres
      (fun s hs it hit => Or.inl (hv s hs it hit)), ?_⟩
    intro row hrow
    rw [List.mem_flatMap] at hrow
    obtain ⟨s, hs, hrow⟩ := hrow
    rw [List.mem_map] at hrow
    obtain ⟨it, hit, hrow⟩ := hrow
    rw [← hrow]
    simp [mkItemRow, hv s hs it hit]

/-- Witness for C9 at a '-' observation and a numeric observation. -/
theorem c9_witness :
    parseItem "S" none ⟨"2024", "A01", none, "-", none, [], none⟩ =
      .ok (mkItemRow "S" none ⟨"2024", "A01", none, "-", none, [], none⟩ none) ∧
    ∃ rows,
      (parse_response_to_dataframe (some
        ⟨some "REQUEST_SUCCEEDED", none,
         some ⟨[⟨"S", none, [⟨"2024", "A01", none, "-", none, [], none⟩]⟩]⟩⟩)).2 =
        .ok (some rows) ∧
      ∀ row ∈ rows, row.value = none :=
  ⟨c9_value_marker_total.1 "S" none ⟨"2024", "A01", none, "-", none, [], none⟩ rfl,
   c9_value_marker_total.2.2 _ _ rfl rfl (by decide)⟩

theorem fetch_ok_some {o : HttpOutcome} {j : ApiResponse}
    (h : fetch_atus_data o = .ok (some j)) : j.status = some "REQUEST_SUCCEEDED" := by
  cases o with
  | err e => simp [fetch_atus_data] at h
  | ok r =>
    simp only [fetch_atus_data] at h
    cases hs : r.status with
    | none => rw [hs] at h; simp at h
    | some s =>
      rw [hs] at h
      by_cases he : s = "REQUEST_SUCCEEDED"
      · subst he
        simp at h
        subst h
        exact hs
      · simp [he] at h

theorem truthy_of_fetch_ok {o : HttpOutcome} {j : ApiResponse}
    (h : fetch_atus_data o = .ok (some j)) : truthyResp (some j) = true := by
  have hs := fetch_ok_some h
  simp [truthyResp, ApiResponse.isFalsy, hs]

/-- C5: parse_atus_response returns None on a None input or one lacking the
'Results' key, and the top-level script of fetch_atus_api.py reaches the
parse call and the CSV write only when the ATUS fetch returned a non-None
value, printing only a failure message otherwise. -/
theorem c5_caller_guards :
    (parse_atus_response none = .ok none) ∧
    (∀ r : ApiResponse, r.Results = none → parse_atus_response (some r) = .ok none) ∧
    (∀ o1 o2 acts, mainScript o1 o2 = .ok acts →
        (ScriptAction.parseCall ∈ acts ∨ ∃ p, ScriptAction.saveCsv p ∈ acts) →
        ∃ j, fetch_atus_data o2 = .ok (some j)) ∧
    (∀ o1 o2 t, fetch_atus_data o1 = .ok (some t) →
        fetch_atus_data o2 = .ok none →
        mainScript o1 o2 = .ok [.printMsg "Failed to fetch ATUS data"]) := by
  refine ⟨rfl, ?_, ?_, ?_⟩
  · intro r hres
    by_cases h : r.isFalsy <;> simp [parse_atus_response, h, hres]
  · intro o1 o2 acts hm hact
    cases h1 : fetch_atus_data o1 with
    | error e => simp [mainScript, h1] at hm
    | ok td =>
      simp only [mainScript, h1] at hm
      by_cases ht1 : truthyResp td = true
      · rw [if_pos ht1] at hm
        cases h2 : fetch_atus_data o2 with
        | error e => simp [h2] at hm
        | ok ad =>
          simp only [h2] at hm
          by_cases ht2 : truthyResp ad = true
          · cases ad with
            | none => simp [truthyResp] at ht2
            | some j => exact ⟨j, rfl⟩
          · rw [if_neg ht2] at hm
            simp only [Except.ok.injEq] at hm
            subst hm
            rcases hact with hact | ⟨p, hact⟩ <;> simp at hact
      · rw [if_neg ht1] at hm
        simp only [Except.ok.injEq] at hm
        subst hm
        rcases hact with hact | ⟨p, hact⟩ <;> simp at hact
  · intro o1 o2 t h1 h2
    have hs := fetch_ok_some h1
    simp [mainScript, h1, h2, truthyResp, ApiResponse.isFalsy, hs]

/-- Witness for C5: a successful connectivity test followed by a failing
ATUS fetch prints only the failure message. -/
theorem c5_witness :
    mainScript (.ok ⟨some "REQUEST_SUCCEEDED", none, none⟩) (.err "timeout") =
      .ok [.printMsg "Failed to fetch ATUS data"] :=
  c5_caller_guards.2.2.2 (.ok ⟨some "REQUEST_SUCCEEDED", none, none⟩) (.err "timeout")
    ⟨some "REQUEST_SUCCEEDED", none, none⟩ rfl rfl

theorem examineOnePage_inRange (doc : List (List Char)) (p : Nat)
    (hp : p ≤ doc.length) (hd : doc ≠ []) :
    examineOnePage false doc p = .error .nameError := by
  unfold examineOnePage
  rw [if_pos hp]
  have htext : ∃ t, textAt doc p = .ok t := by
    unfold textAt
    by_cases h0 : p = 0
    · rw [if_pos h0]
      cases hgl : doc.getLast? with
      | none => exact absurd (List.getLast?_eq_none_iff.mp hgl) hd
      | some t => exact ⟨t, rfl⟩
    · rw [if_neg h0]
      have hlt : p - 1 < doc.length := by omega
      cases hget : doc.get? (p - 1) with
      | none =>
        rw [List.get?_eq_none] at hget
        omega
      | some t => exact ⟨t, rfl⟩
  obtain ⟨t, ht⟩ := htext
  simp only [ht]
  cases hsl : splitLines t with
  | nil => exact absurd hsl (splitLines_ne_nil t)
  | cons l ls => simp

/-- C10: examine_page_with_data references re, which examine_pdf_structure.py
imports only inside its __main__ block; for an importer of the module the
global re is unbound, so any call whose page list contains a page number
within the document raises NameError at the first such page. -/
theorem c10_examine_nameerror (doc : List (List Char)) (pages : List Nat)
    (h : ∃ p ∈ pages, 1 ≤ p ∧ p ≤ doc.length) :
    examine_page_with_data moduleImportsRe doc pages = .error .nameError := by
  have hd : doc ≠ [] := by
    obtain ⟨p, _, hp1, hp2⟩ := h
    intro he
    subst he
    simp at hp2
    omega
  induction pages with
  | nil => simp at h
  | cons p ps ih =>
    by_cases hp : p ≤ doc.length
    · simp only [examine_page_with_data, moduleImportsRe,
        examineOnePage_inRange doc p hp hd]
    · obtain ⟨q, hq, hq1, hq2⟩ := h
      rcases List.mem_cons.mp hq with rfl | hq
      · exact absurd hq2 hp
      · have hrec := ih ⟨q, hq, hq1, hq2⟩
        simp only [examine_page_with_data, moduleImportsRe] at hrec ⊢
        have hone : examineOnePage false doc p = .ok () := by
          unfold examineOnePage
          rw [if_neg hp]
        rw [hone, hrec]

/-- Witness for C10: the default page list on a two-page document. -/
theorem c10_witness :
    (∃ p ∈ defaultPageNumbers, 1 ≤ p ∧
        p ≤ (["page one".data, "page two".data] : List (List Char)).length) ∧
    examine_page_with_data moduleImportsRe ["page one".data, "page two".data]
        defaultPageNumbers = .error .nameError :=
  ⟨⟨1, by decide, by decide, by decide⟩,
   c10_examine_nameerror ["page one".data, "page two".data] defaultPageNumbers
     ⟨1, by decide, by decide, by decide⟩⟩

theorem parseLine_total {r : TimeRow} {raw : List Char}
    (h : parseLine raw = some r) : r.total_minutes = r.hours * 60 + r.minutes := by
  simp only [parseLine] at h
  split at h
  · exact absurd h (by simp)
  · split at h
    · exact absurd h (by simp)
    · rename_i hm
      split at h
      · exact absurd h (by simp)
      · simp only [Option.some.injEq] at h
        subst h
        rfl

theorem dedup_subset : ∀ (l : List TimeRow) (seen : List (List Char)),
    ∀ r ∈ dedupByCategory l seen, r ∈ l := by
  intro l
  induction l with
  | nil => intro seen r hr; simp [dedupByCategory] at hr
  | cons a rest ih =>
    intro seen r hr
    simp only [dedupByCategory] at hr
    split at hr
    · exact List.mem_cons_of_mem _ (ih seen r hr)
    · rcases List.mem_cons.mp hr with rfl | hr
      · exact List.mem_cons_self _ _
      · exact List.mem_cons_of_mem _ (ih _ r hr)

theorem dedup_not_seen : ∀ (l : List TimeRow) (seen : List (List Char)),
    ∀ r ∈ dedupByCategory l seen, r.category ∉ seen := by
  intro l
  induction l with
  | nil => intro seen r hr; simp [dedupByCategory] at hr
  | cons a rest ih =>
    intro seen r hr
    simp only [dedupByCategory] at hr
    split at hr
    · exact ih seen r hr
    · rename_i hns
      rcases List.mem_cons.mp hr with rfl | hr
      · exact hns
      · intro hmem
        exact ih _ r hr (List.mem_cons_of_mem _ hmem)

theorem dedup_pairwise : ∀ (l : List TimeRow) (seen : List (List Char)),
    (dedupByCategory l seen).Pairwise (fun a b => a.category ≠ b.category) := by
  intro l
  induction l with
  | nil => intro seen; simp [dedupByCategory]
  | cons a rest ih =>
    intro seen
    simp only [dedupByCategory]
    split
    · exact ih seen
    · refine List.Pairwise.cons ?_ (ih _)
      intro b hb hab
      exact dedup_not_seen rest _ b hb (hab ▸ List.mem_cons_self _ _)

instance : IsTotal TimeRow byTotalDesc :=
  ⟨fun a b => Nat.le_total b.total_minutes a.total_minutes⟩

instance : IsTrans TimeRow byTotalDesc :=
  ⟨fun _ _ _ hab hbc => Nat.le_trans hbc hab⟩

/-- C8: on every document, the DataFrame built by
scrape_atus.extract_time_use_data has only rows with positive total_minutes,
total_minutes equal to hours * 60 + minutes in every row, pairwise distinct
categories (duplicates dropped keeping the first occurrence), and rows sorted
by total_minutes in descending order. -/
theorem c8_extract_time_use_postconditions (doc : List (List Char)) :
    (∀ r ∈ extract_time_use_data doc, 0 < r.total_minutes) ∧
    (∀ r ∈ extract_time_use_data doc, r.total_minutes = r.hours * 60 + r.minutes) ∧
    (extract_time_use_data doc).Pairwise (fun a b => a.category ≠ b.category) ∧
    (extract_time_use_data doc).Sorted byTotalDesc := by
  have hsymm : Symmetric (fun a b : TimeRow => a.category ≠ b.category) :=
    fun a b h => fun e => h e.symm
  simp only [extract_time_use_data]
  set data :=
    (splitLines (doc.foldl (fun acc page => acc ++ page) [])).filterMap parseLine
    with hdata
  by_cases hde : data.isEmpty = true
  · rw [if_pos hde]
    have hnil : data = [] := List.isEmpty_iff.mp hde
    rw [hnil]
    simp
  · rw [if_neg hde]
    set dd := dedupByCategory (data.filter fun r => 0 < r.total_minutes) [] with hdd
    have hperm := List.perm_insertionSort byTotalDesc dd
    refine ⟨?_, ?_, ?_, ?_⟩
    · intro r hr
      have hr2 : r ∈ data.filter (fun r => 0 < r.total_minutes) :=
        dedup_subset _ _ r (hperm.mem_iff.mp hr)
      have := List.mem_filter.mp hr2
      simpa using this.2
    · intro r hr
      have hr2 : r ∈ data.filter (fun r => 0 < r.total_minutes) :=
        dedup_subset _ _ r (hperm.mem_iff.mp hr)
      have hr3 := (List.mem_filter.mp hr2).1
      rw [hdata] at hr3
      obtain ⟨raw, _, hp⟩ := List.mem_filterMap.mp hr3
      exact parseLine_total hp
    · exact (hperm.pairwise_iff (fun h e => h e.symm)).mpr
        (dedup_pairwise (data.filter fun r => 0 < r.total_minutes) [])
    · exact List.sorted_insertionSort byTotalDesc dd

/-- Witness for C8: the postconditions evaluated on a two-line document. -/
theorem c8_witness :
    0 < (TimeRow.mk "Sleeping".data 8 50 530).total_minutes ∧
    (TimeRow.mk "Sleeping".data 8 50 530).total_minutes = 8 * 60 + 50 :=
  ⟨(c8_extract_time_use_postconditions ["Sleeping 8:50\nTV 2:35".data]).1
      (TimeRow.mk "Sleeping".data 8 50 530) (by decide),
   (c8_extract_time_use_postconditions ["Sleeping 8:50\nTV 2:35".data]).2.1
      (TimeRow.mk "Sleeping".data 8 50 530) (by decide)⟩

theorem mem_dictSet {d : List (String × PyVal)} {k : String} {v : PyVal}
    {kv : String × PyVal} (h : kv ∈ dictSet d k v) : kv ∈ d ∨ kv = (k, v) := by
  induction d with
  | nil => simp [dictSet] at h; simp [h]
  | cons a rest ih =>
    obtain ⟨ka, va⟩ := a
    simp only [dictSet] at h
    split at h
    · rcases List.mem_cons.mp h with rfl | h
      · exact Or.inr rfl
      · exact Or.inl (List.mem_cons_of_mem _ h)
    · rcases List.mem_cons.mp h with rfl | h
      · exact Or.inl (List.mem_cons_self _ _)
      · rcases ih h with h | h
        · exact Or.inl (List.mem_cons_of_mem _ h)
        · exact Or.inr h

theorem mem_putFloatOpt {d : List (String × PyVal)} {k : String} {o : Option Rat}
    {kv : String × PyVal} (h : kv ∈ putFloatOpt d k o) :
    kv ∈ d ∨ ∃ q, kv = (k, PyVal.pfloat q) := by
  cases o with
  | none => exact Or.inl h
  | some q =>
    rcases mem_dictSet h with h | h
    · exact Or.inl h
    · exact Or.inr ⟨q, h⟩

theorem mem_putIntOpt {d : List (String × PyVal)} {k : String} {o : Option Int}
    {kv : String × PyVal} (h : kv ∈ putIntOpt d k o) :
    kv ∈ d ∨ ∃ n, kv = (k, PyVal.pint n) := by
  cases o with
  | none => exact Or.inl h
  | some n =>
    rcases mem_dictSet h with h | h
    · exact Or.inl h
    · exact Or.inr ⟨n, h⟩

theorem mem_putGender {d : List (String × PyVal)} {o : Option (Rat × Rat)}
    {kv : String × PyVal} (h : kv ∈ putGender d o) :
    kv ∈ d ∨ (∃ q, kv = ("men_leisure_hours", PyVal.pfloat q)) ∨
      ∃ q, kv = ("women_leisure_hours", PyVal.pfloat q) := by
  cases o with
  | none => exact Or.inl h
  | some mw =>
    rcases mem_dictSet h with h | h
    · rcases mem_dictSet h with h | h
      · exact Or.inl h
      · exact Or.inr (Or.inl ⟨mw.1, h⟩)
    · exact Or.inr (Or.inr ⟨mw.2, h⟩)

/-- C6: extract_key_statistics only ever stores the six fixed statistic keys,
with every hour-valued key holding a Python float and every minute-valued key
holding a Python int. -/
theorem c6_key_statistics_keys (text : List Char) :
    ∀ kv ∈ extract_key_statistics text,
      (kv.1 = "tv_hours" ∨ kv.1 = "total_leisure_hours" ∨ kv.1 = "gaming_minutes" ∨
        kv.1 = "socializing_minutes" ∨ kv.1 = "men_leisure_hours" ∨
        kv.1 = "women_leisure_hours") ∧
      ((kv.1 = "tv_hours" ∨ kv.1 = "total_leisure_hours" ∨
          kv.1 = "men_leisure_hours" ∨ kv.1 = "women_leisure_hours") →
        ∃ q, kv.2 = PyVal.pfloat q) ∧
      ((kv.1 = "gaming_minutes" ∨ kv.1 = "socializing_minutes") →
        ∃ n, kv.2 = PyVal.pint n) := by
  intro kv h
  unfold extract_key_statistics at h
  rcases mem_putGender h with h | ⟨q, rfl⟩ | ⟨q, rfl⟩
  · rcases mem_putIntOpt h with h | ⟨n, rfl⟩
    · rcases mem_putIntOpt h with h | ⟨n, rfl⟩
      · rcases mem_putFloatOpt h with h | ⟨q, rfl⟩
        · rcases mem_putFloatOpt h with h | ⟨q, rfl⟩
          · simp at h
          · simp
        · simp
      · simp
    · simp
  · simp
  · simp

/-- Witness for C6 on a text matching the socializing pattern. -/
theorem c6_witness :
    ("socializing_minutes", PyVal.pint 28) ∈
      extract_key_statistics "spent 28 minutes socializing and communicating".data ∧
    (("socializing_minutes", PyVal.pint 28).1 = "tv_hours" ∨
      ("socializing_minutes", PyVal.pint 28).1 = "total_leisure_hours" ∨
      ("socializing_minutes", PyVal.pint 28).1 = "gaming_minutes" ∨
      ("socializing_minutes", PyVal.pint 28).1 = "socializing_minutes" ∨
      ("socializing_minutes", PyVal.pint 28).1 = "men_leisure_hours" ∨
      ("socializing_minutes", PyVal.pint 28).1 = "women_leisure_hours") :=
  ⟨by decide,
   (c6_key_statistics_keys "spent 28 minutes socializing and communicating".data
     ("socializing_minutes", PyVal.pint 28) (by decide)).1⟩

theorem t11a_rows_src : ∀ lines : List (List Char),
    ∀ row ∈ extract_table_11a_rows lines,
      ∃ line ∈ lines, hasT11aKeyword line = true ∧ 7 ≤ (findallDec line).length ∧
        row = mkRow11a line (findallDec line) := by
  intro lines
  induction lines with
  | nil => simp [extract_table_11a_rows]
  | cons line rest ih =>
    intro row hrow
    simp only [extract_table_11a_rows] at hrow
    by_cases he : (stripWs line).isEmpty = true
    · rw [if_pos he] at hrow
      obtain ⟨l, hl, h⟩ := ih row hrow
      exact ⟨l, List.mem_cons_of_mem _ hl, h⟩
    · rw [if_neg he] at hrow
      by_cases hk : hasT11aKeyword line = true
      · rw [if_pos hk] at hrow
        by_cases h7 : 7 ≤ (findallDec line).length
        · rw [if_pos h7] at hrow
          rcases List.mem_cons.mp hrow with rfl | hrow
          · exact ⟨line, List.mem_cons_self _ _, hk, h7, rfl⟩
          · obtain ⟨l, hl, h⟩ := ih row hrow
            exact ⟨l, List.mem_cons_of_mem _ hl, h⟩
        · rw [if_neg h7] at hrow
          obtain ⟨l, hl, h⟩ := ih row hrow
          exact ⟨l, List.mem_cons_of_mem _ hl, h⟩
      · rw [if_neg hk] at hrow
        obtain ⟨l, hl, h⟩ := ih row hrow
        exact ⟨l, List.mem_cons_of_mem _ hl, h⟩

/-- C4: the PDF extractor fails silently. A statistic key is present in the
extract_key_statistics dict exactly when its regex matched (an unmatched
pattern adds no entry and raises nothing), and extract_table_11a_data emits a
row only for a line containing a demographic keyword on which re.findall
found at least 7 decimal numbers; every other line produces no row and no
error, and no presence check guards any expected statistic. -/
theorem c4_silent_extraction :
    (∀ text : List Char,
      hasKey (extract_key_statistics text) "tv_hours" =
        (searchAt matchTVAt text).isSome ∧
      hasKey (extract_key_statistics text) "total_leisure_hours" =
        (searchAt matchLeisureAt text).isSome ∧
      hasKey (extract_key_statistics text) "gaming_minutes" =
        (searchAt matchGamingAt text).isSome ∧
      hasKey (extract_key_statistics text) "socializing_minutes" =
        (searchAt matchSocialAt text).isSome ∧
      hasKey (extract_key_statistics text) "men_leisure_hours" =
        (searchAt matchGenderAt text).isSome ∧
      hasKey (extract_key_statistics text) "women_leisure_hours" =
        (searchAt matchGenderAt text).isSome) ∧
    (∀ pageText : List Char, ∀ row ∈ extract_table_11a_data pageText,
      ∃ line ∈ splitLines pageText, hasT11aKeyword line = true ∧
        7 ≤ (findallDec line).length ∧ row = mkRow11a line (findallDec line)) := by
  constructor
  · intro text
    cases h1 : searchAt matchTVAt text <;>
    cases h2 : searchAt matchLeisureAt text <;>
    cases h3 : searchAt matchGamingAt text <;>
    cases h4 : searchAt matchSocialAt text <;>
    cases h5 : searchAt matchGenderAt text <;>
    simp [extract_key_statistics, h1, h2, h3, h4, h5, putFloatOpt, putIntOpt,
      putGender, hasKey, dictGet, dictSet]
  · intro pageText
    exact t11a_rows_src (splitLines pageText)

/-- Witness for C4 at a keyword line carrying seven decimal numbers. -/
theorem c4_witness :
    mkRow11a "Men 1.1 2.2 3.3 4.4 5.5 6.6 7.7".data
        (findallDec "Men 1.1 2.2 3.3 4.4 5.5 6.6 7.7".data) ∈
      extract_table_11a_data "Men 1.1 2.2 3.3 4.4 5.5 6.6 7.7".data ∧
    ∃ line ∈ splitLines "Men 1.1 2.2 3.3 4.4 5.5 6.6 7.7".data,
      hasT11aKeyword line = true ∧ 7 ≤ (findallDec line).length ∧
        mkRow11a "Men 1.1 2.2 3.3 4.4 5.5 6.6 7.7".data
            (findallDec "Men 1.1 2.2 3.3 4.4 5.5 6.6 7.7".data) =
          mkRow11a line (findallDec line) :=
  have hmem : mkRow11a "Men 1.1 2.2 3.3 4.4 5.5 6.6 7.7".data
      (findallDec "Men 1.1 2.2 3.3 4.4 5.5 6.6 7.7".data) ∈
      extract_table_11a_data "Men 1.1 2.2 3.3 4.4 5.5 6.6 7.7".data := by
    have h : extract_table_11a_data "Men 1.1 2.2 3.3 4.4 5.5 6.6 7.7".data =
        [mkRow11a "Men 1.1 2.2 3.3 4.4 5.5 6.6 7.7".data
          (findallDec "Men 1.1 2.2 3.3 4.4 5.5 6.6 7.7".data)] := rfl
    rw [h]
    exact List.mem_singleton.mpr rfl
  ⟨hmem,
   c4_silent_extraction.2 "Men 1.1 2.2 3.3 4.4 5.5 6.6 7.7".data
     (mkRow11a "Men 1.1 2.2 3.3 4.4 5.5 6.6 7.7".data
       (findallDec "Men 1.1 2.2 3.3 4.4 5.5 6.6 7.7".data)) hmem⟩

/-- Witness for C1 (amended) on a failing oracle and a failed-status
response. -/
theorem c1_witness :
    get_latest_series "B" "K" ["S"] (fun _ => .err "boom") =
      (["Error fetching latest data: " ++ "boom"], none) ∧
    get_series_data "B" "K" ["S"] "2023" "2024" true true true true
        (fun _ => .err "boom") =
      (["Error fetching series data: " ++ "boom"], none) ∧
    parse_response_to_dataframe (some ⟨some "REQUEST_NOT_PROCESSED", some "bad key", none⟩) =
      (["Invalid response: " ++
          (Option.getD (some "bad key") "Unknown error")], .ok none) :=
  ⟨c1_amended_error_paths.1 "B" "K" ["S"] (fun _ => .err "boom") "boom" rfl,
   c1_amended_error_paths.2.1 "B" "K" ["S"] "2023" "2024" true true true true
     (fun _ => .err "boom") "boom" rfl,
   c1_amended_error_paths.2.2.2 ⟨some "REQUEST_NOT_PROCESSED", some "bad key", none⟩
     (by decide)⟩
